import Mathlib

/-!
Verification of ccan/tcon (src/ccan/tcon/tcon.h): a compile-time
"type canary" mechanism for typed containers in C.

The header defines three macros:

  #if HAVE_FLEXIBLE_ARRAY_MEMBER
  #define TCON(decls) struct { decls; } _tcon[]
  #else
  #define TCON(decls) struct { decls; } _tcon[1]
  #endif

  #define tcon_check(x, canary, expr)
        (sizeof((x)->_tcon[0].canary == (expr)) ? (x) : (x))

  #if HAVE_TYPEOF
  #define tcon_cast(x, canary, expr) ((__typeof__((x)->_tcon[0].canary))(expr))
  #else
  #define tcon_cast(x, canary, expr) ((void *)(expr))
  #endif

We embed a small fragment of C sufficient for these macro expansions: a
type universe `CType`, an expression AST `CExpr` (including side-effecting
assignment and heap stores, so that frame properties are not vacuous), a
static type assignment `typeOf`, a compile-time diagnostic collector
`diags` that models the "comparison of incompatible types" warning that
C compilers emit for `==` (note: emitted even inside an unevaluated
`sizeof` operand, which is what makes the mechanism work), and a
state-passing evaluator `eval` in which the operands of `sizeof` and
`__typeof__` are NOT evaluated, exactly as in C.
-/

/-- The C types relevant to the mechanism: a few scalar types and
pointer types.  `void` also serves as the pointee of `void *`. -/
inductive CType where
  | void : CType
  | int_t : CType
  | char_t : CType
  | float_t : CType
  | ptr : CType → CType
deriving DecidableEq, Repr

/-- Byte size of a C type in the model (an LP64-like layout; only
positivity and the flexible-array rule matter to the claims). -/
def sizeofCT : CType → Nat
  | CType.void => 1
  | CType.int_t => 4
  | CType.char_t => 1
  | CType.float_t => 4
  | CType.ptr _ => 8

/-- A container's `TCON(decls)` declaration: the named canaries with
their declared types, in declaration order. -/
structure ContainerDecl where
  canaries : List (String × CType)

/-- The declared type of a canary member of the `_tcon` marker, i.e. the
static type of `(x)->_tcon[0].canary`; `none` if no such canary was
declared (a hard compile error in C). -/
def canaryType (d : ContainerDecl) (canary : String) : Option CType :=
  List.lookup canary d.canaries

/-- Whether C's `==` accepts operands of these two types without a
diagnostic: two arithmetic operands are fine (usual arithmetic
conversions), two pointers are fine iff they point to the same type or
one of them is `void *`; pointer vs non-pointer draws a diagnostic. -/
def compatible : CType → CType → Bool
  | CType.ptr a, CType.ptr b => a = b || a = CType.void || b = CType.void
  | CType.ptr _, _ => false
  | _, CType.ptr _ => false
  | _, _ => true

/-- Runtime events, recorded in a trace so that "is never evaluated" /
"is never read or written" claims are about observable effects. -/
inductive Ev where
  | writeVar (l : Nat) (v : Int)
  | readHeap (a : Int)
  | writeHeap (a : Int) (v : Int)
deriving DecidableEq, Repr

/-- C expressions, restricted to what the tcon macro expansions and
their (arbitrary, possibly side-effecting) arguments need.
`canaryRef x d n` is `(x)->_tcon[0].canary`: `x` must be a pointer to a
container declared with `TCON` per `d`, and the member access, if it
were ever evaluated, would read the heap through the value of `x`.
`castTypeof src e` is `((__typeof__(src))(e))`; `src` is unevaluated. -/
inductive CExpr where
  | var (l : Nat) (τ : CType)
  | lit (v : Int) (τ : CType)
  | assign (l : Nat) (τ : CType) (e : CExpr)
  | eqE (a b : CExpr)
  | sizeofE (e : CExpr)
  | cond (c t f : CExpr)
  | castTo (τ : CType) (e : CExpr)
  | canaryRef (x : CExpr) (d : ContainerDecl) (canary : String)
  | castTypeof (src e : CExpr)
  | deref (e : CExpr)
  | storeH (a v : CExpr)

/-- Static type of an expression; `none` models "does not compile".
`==` and `sizeof` yield `int` (standing in for `size_t` as well);
a conditional requires its branches to agree in the fragment we model. -/
def typeOf : CExpr → Option CType
  | CExpr.var _ τ => some τ
  | CExpr.lit _ τ => some τ
  | CExpr.assign _ τ e => (typeOf e).map (fun _ => τ)
  | CExpr.eqE a b => do
      let _ ← typeOf a
      let _ ← typeOf b
      pure CType.int_t
  | CExpr.sizeofE e => (typeOf e).map (fun _ => CType.int_t)
  | CExpr.cond c t f => do
      let _ ← typeOf c
      let τt ← typeOf t
      let τf ← typeOf f
      if τt = τf then pure τt else none
  | CExpr.castTo τ e => (typeOf e).map (fun _ => τ)
  | CExpr.canaryRef x d canary => do
      let _ ← typeOf x
      canaryType d canary
  | CExpr.castTypeof src e => do
      let τ ← typeOf src
      let _ ← typeOf e
      pure τ
  | CExpr.deref e => do
      let τ ← typeOf e
      match τ with
      | CType.ptr t => pure t
      | _ => none
  | CExpr.storeH a v => do
      let τa ← typeOf a
      let _ ← typeOf v
      match τa with
      | CType.ptr t => pure t
      | _ => none

/-- Does compiling this expression emit a diagnostic?  The one
diagnostic the mechanism relies on is the incompatible-operands warning
on `==`; it is collected also under `sizeof` and `__typeof__`, whose
operands are type-checked even though they are never evaluated. -/
def diags : CExpr → Bool
  | CExpr.var _ _ => false
  | CExpr.lit _ _ => false
  | CExpr.assign _ _ e => diags e
  | CExpr.eqE a b =>
      diags a || diags b ||
        (match typeOf a, typeOf b with
         | some τa, some τb => !compatible τa τb
         | _, _ => false)
  | CExpr.sizeofE e => diags e
  | CExpr.cond c t f => diags c || diags t || diags f
  | CExpr.castTo _ e => diags e
  | CExpr.canaryRef x _ _ => diags x
  | CExpr.castTypeof src e => diags src || diags e
  | CExpr.deref e => diags e
  | CExpr.storeH a v => diags a || diags v

/-- The program state: a store for named variables, a heap (where
container structures, and hence `_tcon` marker bytes, live), and a
trace of the runtime effects performed so far. -/
structure CState where
  store : Nat → Int
  heap : Int → Int
  trace : List Ev

/-- The value of `sizeof` applied to an operand of this static type
(the `none` default is irrelevant: an ill-typed operand does not
compile; any positive value keeps the evaluator total). -/
def sizeofOf : Option CType → Nat
  | some τ => sizeofCT τ
  | none => 1

/-- A C cast at the value level.  In the model all values live in one
word-sized universe and casts reinterpret without changing the
representation, as C pointer casts do. -/
def castVal (τ : CType) (v : Int) : Int :=
  match τ with
  | _ => v

/-- Big-step evaluation, threading the state left to right.  The
operand of `sizeofE` is not evaluated (its value is a compile-time
constant determined by the operand's static type), and the `src`
operand of `castTypeof` is not evaluated either: exactly C's rules for
`sizeof` and `__typeof__` on non-VLA operands.  A conditional evaluates
its condition and then exactly one branch.  Member access through the
canary reference, if evaluated, reads the heap through the container
pointer. -/
def eval : CExpr → CState → CState × Int
  | CExpr.var l _, s => (s, s.store l)
  | CExpr.lit v _, s => (s, v)
  | CExpr.assign l _ e, s =>
      let p := eval e s
      ({ p.1 with store := Function.update p.1.store l p.2,
                  trace := p.1.trace ++ [Ev.writeVar l p.2] }, p.2)
  | CExpr.eqE a b, s =>
      let pa := eval a s
      let pb := eval b pa.1
      (pb.1, if pa.2 = pb.2 then 1 else 0)
  | CExpr.sizeofE e, s => (s, Int.ofNat (sizeofOf (typeOf e)))
  | CExpr.cond c t f, s =>
      let pc := eval c s
      if pc.2 ≠ 0 then eval t pc.1 else eval f pc.1
  | CExpr.castTo τ e, s =>
      let p := eval e s
      (p.1, castVal τ p.2)
  | CExpr.canaryRef x _ _, s =>
      let p := eval x s
      ({ p.1 with trace := p.1.trace ++ [Ev.readHeap p.2] }, p.1.heap p.2)
  | CExpr.castTypeof src e, s =>
      let p := eval e s
      (p.1, castVal ((typeOf src).getD CType.void) p.2)
  | CExpr.deref e, s =>
      let p := eval e s
      ({ p.1 with trace := p.1.trace ++ [Ev.readHeap p.2] }, p.1.heap p.2)
  | CExpr.storeH a v, s =>
      let pa := eval a s
      let pv := eval v pa.1
      ({ pv.1 with heap := Function.update pv.1.heap pa.2 pv.2,
                   trace := pv.1.trace ++ [Ev.writeHeap pa.2 pv.2] }, pv.2)

/-- `#define tcon_check(x, canary, expr)
	(sizeof((x)->_tcon[0].canary == (expr)) ? (x) : (x))`
(src/ccan/tcon/tcon.h lines 61-62), as an AST transformer: the macro
expansion with the container expression `x`, the canary name, and the
checked expression substituted in. -/
def tcon_check (d : ContainerDecl) (x : CExpr) (canary : String)
    (expr : CExpr) : CExpr :=
  CExpr.cond (CExpr.sizeofE (CExpr.eqE (CExpr.canaryRef x d canary) expr)) x x

/-- `#define tcon_cast(x, canary, expr)
	((__typeof__((x)->_tcon[0].canary))(expr))`
(src/ccan/tcon/tcon.h line 77), the HAVE_TYPEOF variant. -/
def tcon_cast (d : ContainerDecl) (x : CExpr) (canary : String)
    (expr : CExpr) : CExpr :=
  CExpr.castTypeof (CExpr.canaryRef x d canary) expr

/-- `#define tcon_cast(x, canary, expr) ((void *)(expr))`
(src/ccan/tcon/tcon.h line 79), the fallback when HAVE_TYPEOF is
absent.  The container and canary arguments are accepted and discarded,
exactly as in the macro body, which mentions neither. -/
def tcon_cast_noTypeof (x : CExpr) (canary : String) (expr : CExpr) : CExpr :=
  CExpr.castTo (CType.ptr CType.void) expr

/-- `#define TCON(decls) struct { decls; } _tcon[]` when
HAVE_FLEXIBLE_ARRAY_MEMBER, else `struct { decls; } _tcon[1]`
(src/ccan/tcon/tcon.h lines 39-43): the storage the `_tcon` member
contributes to the enclosing struct.  A flexible (zero-sized trailing)
array member contributes nothing; `_tcon[1]` contributes one element of
the anonymous aggregate (modelled without padding, as the packed sum of
its member sizes). -/
def tconMemberSize (haveFlexibleArrayMember : Bool) (d : ContainerDecl) : Nat :=
  if haveFlexibleArrayMember then 0
  else (d.canaries.map (fun p => sizeofCT p.2)).sum

/-- `sizeof` of a container struct whose members before the `_tcon`
marker have the given byte sizes and whose marker is declared per `d`. -/
def containerSizeof (haveFlexibleArrayMember : Bool) (baseFields : List Nat)
    (d : ContainerDecl) : Nat :=
  baseFields.sum + tconMemberSize haveFlexibleArrayMember d

/-- `sizeof` of the same container struct without the `TCON` marker. -/
def containerSizeofNoTcon (baseFields : List Nat) : Nat :=
  baseFields.sum

/- ------------------------------------------------------------------ -/
/- Helper lemmas (shared; not claim theorems).                         -/
/- ------------------------------------------------------------------ -/

/-- The expansion of `tcon_check` evaluates exactly like its container
argument alone: the `sizeof` condition is a constant whose evaluation
has no effect, and both branches of the conditional are `x`. -/
theorem eval_tcon_check_eq (d : ContainerDecl) (x : CExpr) (canary : String)
    (expr : CExpr) (s : CState) :
    eval (tcon_check d x canary expr) s = eval x s := by
  simp only [tcon_check, eval]
  split <;> rfl

/-- The expansion of the HAVE_TYPEOF `tcon_cast` evaluates exactly like
its `expr` argument alone: `__typeof__` does not evaluate its operand,
and the cast reinterprets the value without changing it. -/
theorem eval_tcon_cast_eq (d : ContainerDecl) (x : CExpr) (canary : String)
    (expr : CExpr) (s : CState) :
    eval (tcon_cast d x canary expr) s = eval expr s := by
  simp only [tcon_cast, eval, castVal]

/-- Every C type has positive size, so the `sizeof` condition inside
`tcon_check` is a nonzero constant. -/
theorem sizeofOf_pos (o : Option CType) : 0 < sizeofOf o := by
  cases o with
  | none => simp [sizeofOf]
  | some τ => cases τ <;> simp [sizeofOf, sizeofCT]

/-- A type is `==`-compatible with itself. -/
theorem compatible_self (τ : CType) : compatible τ τ = true := by
  cases τ <;> simp [compatible]

/- ------------------------------------------------------------------ -/
/- Claim theorems.                                                     -/
/- ------------------------------------------------------------------ -/

/-- Claim C1: for every container instance `x`, canary name, and
expression `expr`, `tcon_check(x, canary, expr)` evaluates at runtime
to exactly the original container instance `x`, unchanged — same value
and same resulting state — whether or not the types are compatible, so
a surrounding call chaining it inline receives exactly the original
container argument. -/
theorem tcon_check_chains_to_container (d : ContainerDecl) (x : CExpr)
    (canary : String) (expr : CExpr) (s : CState) :
    (eval (tcon_check d x canary expr) s).2 = (eval x s).2 ∧
    eval (tcon_check d x canary expr) s = eval x s := by
  exact ⟨by rw [eval_tcon_check_eq], eval_tcon_check_eq d x canary expr s⟩

/-- Claim C2: `tcon_check` emits a compiler diagnostic if and only if
the expression's type is incompatible with the named canary's declared
type; in particular a type is always compatible with itself, so an
expression of the declared type never draws a diagnostic. -/
theorem tcon_check_diag_iff_incompatible (d : ContainerDecl) (x : CExpr)
    (canary : String) (expr : CExpr) (T U τx : CType)
    (hc : canaryType d canary = some T) (hxt : typeOf x = some τx)
    (hU : typeOf expr = some U) (hx : diags x = false)
    (he : diags expr = false) :
    diags (tcon_check d x canary expr) = !compatible T U ∧
    compatible T T = true := by
  constructor
  · simp [tcon_check, diags, typeOf, hc, hxt, hU, hx, he]
  · exact compatible_self T

/-- Claim C2, witnessed: a `char *` canary checked against an `int`
expression draws the diagnostic, and `char *` is compatible with
itself. -/
theorem tcon_check_diag_iff_incompatible_witness :
    diags (tcon_check (ContainerDecl.mk [("canary", CType.ptr CType.char_t)])
        (CExpr.lit 0 (CType.ptr CType.int_t)) "canary"
        (CExpr.lit 0 CType.int_t))
      = !compatible (CType.ptr CType.char_t) CType.int_t ∧
    compatible (CType.ptr CType.char_t) (CType.ptr CType.char_t) = true :=
  tcon_check_diag_iff_incompatible
    (ContainerDecl.mk [("canary", CType.ptr CType.char_t)])
    (CExpr.lit 0 (CType.ptr CType.int_t)) "canary"
    (CExpr.lit 0 CType.int_t)
    (CType.ptr CType.char_t) CType.int_t (CType.ptr CType.int_t)
    (by rfl) (by rfl) (by rfl) (by rfl) (by rfl)

/-- Claim C3: with HAVE_TYPEOF, `tcon_cast(x, canary, expr)` has
exactly the canary's declared static type; without it, the fallback
yields static type `void *`. -/
theorem tcon_cast_static_type (d : ContainerDecl) (x : CExpr)
    (canary : String) (expr : CExpr) (T τx U : CType)
    (hc : canaryType d canary = some T) (hxt : typeOf x = some τx)
    (hU : typeOf expr = some U) :
    typeOf (tcon_cast d x canary expr) = some T ∧
    typeOf (tcon_cast_noTypeof x canary expr) = some (CType.ptr CType.void) := by
  constructor
  · simp [tcon_cast, typeOf, hc, hxt, hU]
  · simp [tcon_cast_noTypeof, typeOf, hU]

/-- Claim C3, witnessed: casting via a `char *` canary yields static
type `char *`; the fallback yields `void *`. -/
theorem tcon_cast_static_type_witness :
    typeOf (tcon_cast (ContainerDecl.mk [("canary", CType.ptr CType.char_t)])
        (CExpr.lit 0 (CType.ptr CType.int_t)) "canary"
        (CExpr.lit 0 (CType.ptr CType.char_t)))
      = some (CType.ptr CType.char_t) ∧
    typeOf (tcon_cast_noTypeof (CExpr.lit 0 (CType.ptr CType.int_t)) "canary"
        (CExpr.lit 0 (CType.ptr CType.char_t)))
      = some (CType.ptr CType.void) :=
  tcon_cast_static_type
    (ContainerDecl.mk [("canary", CType.ptr CType.char_t)])
    (CExpr.lit 0 (CType.ptr CType.int_t)) "canary"
    (CExpr.lit 0 (CType.ptr CType.char_t))
    (CType.ptr CType.char_t) (CType.ptr CType.int_t) (CType.ptr CType.char_t)
    (by rfl) (by rfl) (by rfl)

/-- Claim C4: a canary declared with type `void *` accepts an
expression of any pointer type without a diagnostic. -/
theorem tcon_check_voidptr_accepts_any_pointer (d : ContainerDecl)
    (x : CExpr) (canary : String) (expr : CExpr) (τ τx : CType)
    (hc : canaryType d canary = some (CType.ptr CType.void))
    (hxt : typeOf x = some τx) (hU : typeOf expr = some (CType.ptr τ))
    (hx : diags x = false) (he : diags expr = false) :
    diags (tcon_check d x canary expr) = false := by
  simp [tcon_check, diags, typeOf, hc, hxt, hU, hx, he, compatible]

/-- Claim C4, witnessed: a `void *` canary checked against a
`float *` expression draws no diagnostic. -/
theorem tcon_check_voidptr_accepts_any_pointer_witness :
    diags (tcon_check (ContainerDecl.mk [("canary", CType.ptr CType.void)])
        (CExpr.lit 0 (CType.ptr CType.int_t)) "canary"
        (CExpr.lit 0 (CType.ptr CType.float_t)))
      = false :=
  tcon_check_voidptr_accepts_any_pointer
    (ContainerDecl.mk [("canary", CType.ptr CType.void)])
    (CExpr.lit 0 (CType.ptr CType.int_t)) "canary"
    (CExpr.lit 0 (CType.ptr CType.float_t))
    CType.float_t (CType.ptr CType.int_t)
    (by rfl) (by rfl) (by rfl) (by rfl) (by rfl)

/-- Claim C5: the `expr` argument of `tcon_check` is never evaluated at
runtime: the resulting state is exactly the state after evaluating `x`
alone (no side effect of `expr` occurs), and the entire evaluation is
unchanged when `expr` is replaced by any other expression. -/
theorem tcon_check_expr_never_evaluated (d : ContainerDecl) (x : CExpr)
    (canary : String) (expr e1 e2 : CExpr) (s : CState) :
    (eval (tcon_check d x canary expr) s).1 = (eval x s).1 ∧
    eval (tcon_check d x canary e1) s = eval (tcon_check d x canary e2) s := by
  constructor
  · rw [eval_tcon_check_eq]
  · rw [eval_tcon_check_eq, eval_tcon_check_eq]

/-- Claim C6: with flexible array members the `_tcon` marker adds
nothing to the container's `sizeof`; without them it adds exactly one
element of the anonymous canary aggregate. -/
theorem tcon_marker_storage (baseFields : List Nat) (d : ContainerDecl) :
    containerSizeof true baseFields d = containerSizeofNoTcon baseFields ∧
    containerSizeof false baseFields d =
      containerSizeofNoTcon baseFields +
        (d.canaries.map (fun p => sizeofCT p.2)).sum := by
  simp [containerSizeof, containerSizeofNoTcon, tconMemberSize]

/-- Claim C7: `tcon_cast` is a pure rewrite of the expression's static
type: its evaluation coincides with evaluating `expr` alone — same
value, same state, so the container's runtime contents are never read
and no side effect beyond those of `expr` occurs — and the result is
independent of which container instance (and which declaration or
canary) it is applied to. -/
theorem tcon_cast_pure (d d' : ContainerDecl) (x x' : CExpr)
    (canary c' : String) (expr : CExpr) (s : CState) :
    eval (tcon_cast d x canary expr) s = eval expr s ∧
    eval (tcon_cast d x canary expr) s = eval (tcon_cast d' x' c' expr) s := by
  constructor
  · exact eval_tcon_cast_eq d x canary expr s
  · rw [eval_tcon_cast_eq, eval_tcon_cast_eq]

/-- Claim C8: the `_tcon` marker is never read or written at runtime:
`tcon_check` leaves the heap and the effect trace exactly as evaluating
`x` alone does (no `readHeap` from the canary member occurs, since it
sits inside an unevaluated `sizeof` operand), and `tcon_cast` leaves
them exactly as evaluating `expr` alone does. -/
theorem tcon_marker_never_accessed (d : ContainerDecl) (x : CExpr)
    (canary : String) (expr : CExpr) (s : CState) :
    (eval (tcon_check d x canary expr) s).1.heap = ((eval x s).1).heap ∧
    (eval (tcon_check d x canary expr) s).1.trace = ((eval x s).1).trace ∧
    (eval (tcon_cast d x canary expr) s).1.heap = ((eval expr s).1).heap ∧
    (eval (tcon_cast d x canary expr) s).1.trace = ((eval expr s).1).trace := by
  rw [eval_tcon_check_eq, eval_tcon_cast_eq]
  exact ⟨rfl, rfl, rfl, rfl⟩

/-- Claim C9: the fallback `tcon_cast` (no HAVE_TYPEOF) never consults
the canary: its expansion is identical for any container and canary
name, it has static type `void *`, and it emits no diagnostic even when
the expression's type is incompatible with the canary's declared
type. -/
theorem tcon_cast_noTypeof_ignores_canary (d : ContainerDecl)
    (x x' : CExpr) (canary c' : String) (expr : CExpr) (T U : CType)
    (hc : canaryType d canary = some T) (hU : typeOf expr = some U)
    (hinc : compatible T U = false) (he : diags expr = false) :
    tcon_cast_noTypeof x canary expr = tcon_cast_noTypeof x' c' expr ∧
    typeOf (tcon_cast_noTypeof x canary expr) = some (CType.ptr CType.void) ∧
    diags (tcon_cast_noTypeof x canary expr) = false := by
  refine ⟨rfl, ?_, ?_⟩
  · simp [tcon_cast_noTypeof, typeOf, hU]
  · simp [tcon_cast_noTypeof, diags, he]

/-- Claim C9, witnessed: with a `char *` canary and an `int`-typed
expression (incompatible), the fallback cast still compiles clean to
`void *` and is the same expansion under a different canary name. -/
theorem tcon_cast_noTypeof_ignores_canary_witness :
    tcon_cast_noTypeof (CExpr.lit 0 (CType.ptr CType.int_t)) "canary"
        (CExpr.lit 0 CType.int_t)
      = tcon_cast_noTypeof (CExpr.lit 1 CType.int_t) "other"
        (CExpr.lit 0 CType.int_t) ∧
    typeOf (tcon_cast_noTypeof (CExpr.lit 0 (CType.ptr CType.int_t)) "canary"
        (CExpr.lit 0 CType.int_t))
      = some (CType.ptr CType.void) ∧
    diags (tcon_cast_noTypeof (CExpr.lit 0 (CType.ptr CType.int_t)) "canary"
        (CExpr.lit 0 CType.int_t)) = false :=
  tcon_cast_noTypeof_ignores_canary
    (ContainerDecl.mk [("canary", CType.ptr CType.char_t)])
    (CExpr.lit 0 (CType.ptr CType.int_t)) (CExpr.lit 1 CType.int_t)
    "canary" "other" (CExpr.lit 0 CType.int_t)
    (CType.ptr CType.char_t) CType.int_t
    (by rfl) (by rfl) (by rfl) (by rfl)

/-- Claim C10: although `x` occurs three times in the `tcon_check`
expansion, it is evaluated exactly once: the `sizeof` condition is an
effect-free positive constant, and the conditional then evaluates one
branch, so the whole expansion performs precisely the effects of one
evaluation of `x`. -/
theorem tcon_check_container_evaluated_once (d : ContainerDecl) (x : CExpr)
    (canary : String) (expr : CExpr) (s : CState) :
    eval (CExpr.sizeofE (CExpr.eqE (CExpr.canaryRef x d canary) expr)) s
      = (s, Int.ofNat (sizeofOf
          (typeOf (CExpr.eqE (CExpr.canaryRef x d canary) expr)))) ∧
    0 < sizeofOf (typeOf (CExpr.eqE (CExpr.canaryRef x d canary) expr)) ∧
    eval (tcon_check d x canary expr) s = eval x s := by
  exact ⟨rfl, sizeofOf_pos _, eval_tcon_check_eq d x canary expr s⟩
